import Mathlib

/-!
Shallow embedding of the Grompt prompt-optimization helper
(src/prompt_canvas.py, src/Grompt.py, src/streamlit_app.py), together
with theorems settling the specification claims about it.

Modelling conventions:
- Python `str` is Lean `String`; Python `Optional[List[str]]` is
  `Option (List String)`.
- Python truthiness of an `Optional[List[str]]` value (`if canvas.steps`)
  is false exactly when the value is `None` or the empty list.
- Python `sep.join(xs)` is `joinSep sep xs` below.
- The Groq client call is abstracted as a function
  `api : ChatRequest → Except String String` returning either the content
  of the first choice of the response or the text of the raised exception;
  `rephrase_prompt` is parameterised by it.
- Python `.strip()` is `String.trim`.
-/

namespace Grompt

/-- Record declared by the dataclass PromptCanvas in src/prompt_canvas.py:
eight fields, in source order. -/
structure PromptCanvas where
  persona : String
  audience : String
  task : String
  steps : Option (List String)
  context : String
  references : Option (List String)
  output_format : String
  tonality : String

/-- Semantics of Python str.join: concatenates the list elements with the
separator between consecutive elements, empty string on the empty list. -/
def joinSep (sep : String) : List String → String
  | [] => ""
  | [x] => x
  | x :: y :: ys => x ++ sep ++ joinSep sep (y :: ys)

/-- Embeds line 35 of src/Grompt.py: the steps block of the system message
is the newline-join of "- {step}" over canvas.steps when that field is
truthy (a non-empty list), and the placeholder "None" otherwise. -/
def steps_str (steps : Option (List String)) : String :=
  match steps with
  | some l => if l.isEmpty then "None" else joinSep "\n" (l.map (fun step => "- " ++ step))
  | none => "None"

/-- Embeds line 36 of src/Grompt.py: the references block is the
comma-join of canvas.references when that field is truthy, and the
placeholder "None" otherwise. -/
def references_str (references : Option (List String)) : String :=
  match references with
  | some l => if l.isEmpty then "None" else joinSep ", " l
  | none => "None"

/-- Embeds get_rephrased_user_prompt (src/Grompt.py lines 55-70): the
rephrasing system message built from the bare user prompt. -/
def get_rephrased_user_prompt (prompt : String) : String :=
  "You are a professional prompt engineer. Optimize this prompt by making it clearer, more concise, and more effective.\n    User request: \"" ++ prompt ++ "\"\n    Rephrased:"

/-- Embeds craft_system_message (src/Grompt.py lines 19-53): with a canvas
it renders the template of lines 37-50 from the canvas fields; without one
it falls back to get_rephrased_user_prompt. -/
def craft_system_message (canvas : Option PromptCanvas) (prompt : String) : String :=
  match canvas with
  | some c =>
      "You are a " ++ c.persona ++ " focused on delivering results for " ++ c.audience
        ++ ".\n\n" ++ "Task: " ++ c.task
        ++ "\n\n" ++ "Step-by-Step Approach:\n" ++ steps_str c.steps
        ++ "\n\n" ++ "Context: " ++ c.context
        ++ "\n\n" ++ "References: " ++ references_str c.references
        ++ "\n\n" ++ "Output Requirements:\n- Format: " ++ c.output_format
        ++ "\n- Tone: " ++ c.tonality
  | none => get_rephrased_user_prompt prompt

/-- One message of a chat-completion request, as built on line 102 of
src/Grompt.py. -/
structure ChatMessage where
  role : String
  content : String

/-- The chat-completion request assembled by rephrase_prompt
(src/Grompt.py lines 101-106). -/
structure ChatRequest where
  messages : List ChatMessage
  model : String
  temperature : Rat
  max_tokens : Int

/-- The single request that rephrase_prompt sends to the Groq API
(src/Grompt.py lines 101-106): one user message whose content is the
crafted system message, plus the pass-through model parameters. -/
def sentRequest (prompt : String) (model : String) (temperature : Rat)
    (max_tokens : Int) (canvas : Option PromptCanvas) : ChatRequest :=
  { messages := [{ role := "user", content := craft_system_message canvas prompt }],
    model := model, temperature := temperature, max_tokens := max_tokens }

/-- Embeds rephrase_prompt (src/Grompt.py lines 72-110), parameterised by
the remote call: on success it returns the response content stripped of
leading and trailing whitespace; any exception text e raised by the call
is re-raised as "Prompt engineering error: " followed by e. -/
def rephrase_prompt (api : ChatRequest → Except String String)
    (prompt : String) (model : String) (temperature : Rat)
    (max_tokens : Int) (canvas : Option PromptCanvas) : Except String String :=
  match api (sentRequest prompt model temperature max_tokens canvas) with
  | Except.ok content => Except.ok content.trim
  | Except.error e => Except.error ("Prompt engineering error: " ++ e)

/-- State-passing form of rephrase_prompt used for the frame property:
the second component is the canvas variable as it stands when the call
returns or raises. The source (src/Grompt.py lines 96-110) only reads
canvas, so the variable is returned unchanged on both paths. -/
def rephrase_prompt_frame (api : ChatRequest → Except String String)
    (prompt : String) (model : String) (temperature : Rat)
    (max_tokens : Int) (canvas : Option PromptCanvas) :
    Except String String × Option PromptCanvas :=
  match api (sentRequest prompt model temperature max_tokens canvas) with
  | Except.ok content => (Except.ok content.trim, canvas)
  | Except.error e => (Except.error ("Prompt engineering error: " ++ e), canvas)

/-- Record declared by the dataclass PromptCanvas in src/streamlit_app.py
(lines 16-28): same eight fields, with defaults, before __post_init__
normalisation. -/
structure PromptCanvasSt where
  persona : String := ""
  audience : String := ""
  task : String := ""
  steps : Option (List String) := none
  context : String := ""
  references : Option (List String) := none
  output_format : String := ""
  tonality : String := ""

/-- Embeds PromptCanvas.__post_init__ (src/streamlit_app.py lines 30-37):
replaces a None steps or references value with the empty list, leaving
every other field untouched. -/
def PromptCanvasSt.post_init (c : PromptCanvasSt) : PromptCanvasSt :=
  { c with
    steps := match c.steps with
      | none => some []
      | some l => some l
    references := match c.references with
      | none => some []
      | some l => some l }

/-- Construction of a streamlit PromptCanvas: the dataclass __init__
stores the arguments and then runs __post_init__. -/
def mkPromptCanvasSt (persona : String) (audience : String) (task : String)
    (steps : Option (List String)) (context : String)
    (references : Option (List String)) (output_format : String)
    (tonality : String) : PromptCanvasSt :=
  PromptCanvasSt.post_init
    { persona := persona, audience := audience, task := task, steps := steps,
      context := context, references := references,
      output_format := output_format, tonality := tonality }

/-- Python type annotations occurring among the PromptCanvas fields. -/
inductive PyFieldType where
  | str
  | optListStr
deriving DecidableEq, BEq, Repr

/-- Field names and declared types of the PromptCanvas dataclass, in
source order (src/prompt_canvas.py lines 9-16, identically typed in
src/streamlit_app.py lines 21-28). -/
def promptCanvasFields : List (String × PyFieldType) :=
  [("persona", PyFieldType.str),
   ("audience", PyFieldType.str),
   ("task", PyFieldType.str),
   ("steps", PyFieldType.optListStr),
   ("context", PyFieldType.str),
   ("references", PyFieldType.optListStr),
   ("output_format", PyFieldType.str),
   ("tonality", PyFieldType.str)]

/-- Lean carrier of each Python field type. -/
abbrev PyFieldType.denote : PyFieldType → Type
  | PyFieldType.str => String
  | PyFieldType.optListStr => Option (List String)

/-- Iterated product of the carriers of a field list. -/
abbrev fieldsType : List (String × PyFieldType) → Type
  | [] => PUnit
  | f :: fs => f.2.denote × fieldsType fs

/-- The PromptCanvas record is exactly a tuple of the declared field
types, tying the field-type table to the structure itself. -/
def canvasEquiv : PromptCanvas ≃ fieldsType promptCanvasFields where
  toFun c := (c.persona, c.audience, c.task, c.steps, c.context, c.references,
    c.output_format, c.tonality, PUnit.unit)
  invFun t := ⟨t.1, t.2.1, t.2.2.1, t.2.2.2.1, t.2.2.2.2.1, t.2.2.2.2.2.1,
    t.2.2.2.2.2.2.1, t.2.2.2.2.2.2.2.1⟩
  left_inv := fun _ => rfl
  right_inv := fun _ => rfl

/-- Substring relation: small occurs verbatim and contiguously in big. -/
def Contains (big small : String) : Prop := ∃ a b : String, big = a ++ small ++ b

/-- Concrete canvas with every field populated, used to instantiate the
claim theorems. -/
def sampleCanvas : PromptCanvas :=
  { persona := "tutor", audience := "students", task := "explain the lesson",
    steps := some ["read the notes", "summarize"], context := "a geometry class",
    references := some ["the textbook", "the slides"],
    output_format := "Markdown", tonality := "friendly" }

/-- Concrete canvas whose optional fields are empty: steps is None and
references is an empty list. -/
def blankListCanvas : PromptCanvas :=
  { persona := "a", audience := "b", task := "c", steps := none,
    context := "d", references := some [], output_format := "e",
    tonality := "f" }

/-- Remote call that always raises, with exception text "boom". -/
def failApi : ChatRequest → Except String String := fun _ => Except.error "boom"

/-- Remote call that always succeeds with a padded response text. -/
def okApi : ChatRequest → Except String String := fun _ => Except.ok "  hello  "

theorem contains_of_eq (big a small b : String) (h : big = a ++ small ++ b) :
    Contains big small := ⟨a, b, h⟩

theorem contains_self (s : String) : Contains s s :=
  ⟨"", "", by rw [String.empty_append, String.append_empty]⟩

theorem contains_append_left (a : String) (s : String) (b : String)
    (h : Contains a s) : Contains (a ++ b) s := by
  obtain ⟨x, y, hx⟩ := h
  exact ⟨x, y ++ b, by rw [hx]; simp only [String.append_assoc]⟩

theorem contains_append_right (a : String) (s : String) (b : String)
    (h : Contains b s) : Contains (a ++ b) s := by
  obtain ⟨x, y, hx⟩ := h
  exact ⟨a ++ x, y, by rw [hx]; simp only [String.append_assoc]⟩

theorem contains_trans (big mid s : String) (h1 : Contains big mid)
    (h2 : Contains mid s) : Contains big s := by
  obtain ⟨x, y, hx⟩ := h1
  obtain ⟨u, v, hu⟩ := h2
  exact ⟨x ++ u, v ++ y, by rw [hx, hu]; simp only [String.append_assoc]⟩

theorem contains_joinSep (sep : String) (l : List String) (x : String)
    (hx : x ∈ l) : Contains (joinSep sep l) x := by
  induction l with
  | nil => cases hx
  | cons a t ih =>
    cases t with
    | nil =>
      have : x = a := by
        rcases List.mem_cons.mp hx with h | h
        · exact h
        · cases h
      rw [this]
      exact contains_self a
    | cons b u =>
      rcases List.mem_cons.mp hx with h | h
      · rw [h]
        show Contains (a ++ sep ++ joinSep sep (b :: u)) a
        exact contains_append_left _ _ _ (contains_append_left _ _ _ (contains_self a))
      · show Contains (a ++ sep ++ joinSep sep (b :: u)) x
        exact contains_append_right _ _ _ (ih h)

theorem craft_contains_persona (c : PromptCanvas) (p : String) :
    Contains (craft_system_message (some c) p) c.persona := by
  apply contains_of_eq _ "You are a " c.persona
    (" focused on delivering results for " ++ c.audience
      ++ ".\n\n" ++ "Task: " ++ c.task
      ++ "\n\n" ++ "Step-by-Step Approach:\n" ++ steps_str c.steps
      ++ "\n\n" ++ "Context: " ++ c.context
      ++ "\n\n" ++ "References: " ++ references_str c.references
      ++ "\n\n" ++ "Output Requirements:\n- Format: " ++ c.output_format
      ++ "\n- Tone: " ++ c.tonality)
  simp only [craft_system_message, String.append_assoc]

theorem craft_contains_audience (c : PromptCanvas) (p : String) :
    Contains (craft_system_message (some c) p) c.audience := by
  apply contains_of_eq _ ("You are a " ++ c.persona
    ++ " focused on delivering results for ") c.audience
    (".\n\n" ++ "Task: " ++ c.task
      ++ "\n\n" ++ "Step-by-Step Approach:\n" ++ steps_str c.steps
      ++ "\n\n" ++ "Context: " ++ c.context
      ++ "\n\n" ++ "References: " ++ references_str c.references
      ++ "\n\n" ++ "Output Requirements:\n- Format: " ++ c.output_format
      ++ "\n- Tone: " ++ c.tonality)
  simp only [craft_system_message, String.append_assoc]

theorem craft_contains_task (c : PromptCanvas) (p : String) :
    Contains (craft_system_message (some c) p) c.task := by
  apply contains_of_eq _ ("You are a " ++ c.persona
    ++ " focused on delivering results for " ++ c.audience
    ++ ".\n\n" ++ "Task: ") c.task
    ("\n\n" ++ "Step-by-Step Approach:\n" ++ steps_str c.steps
      ++ "\n\n" ++ "Context: " ++ c.context
      ++ "\n\n" ++ "References: " ++ references_str c.references
      ++ "\n\n" ++ "Output Requirements:\n- Format: " ++ c.output_format
      ++ "\n- Tone: " ++ c.tonality)
  simp only [craft_system_message, String.append_assoc]

theorem craft_contains_steps_block (c : PromptCanvas) (p : String) :
    Contains (craft_system_message (some c) p)
      ("Step-by-Step Approach:\n" ++ steps_str c.steps) := by
  apply contains_of_eq _ ("You are a " ++ c.persona
    ++ " focused on delivering results for " ++ c.audience
    ++ ".\n\n" ++ "Task: " ++ c.task ++ "\n\n")
    ("Step-by-Step Approach:\n" ++ steps_str c.steps)
    ("\n\n" ++ "Context: " ++ c.context
      ++ "\n\n" ++ "References: " ++ references_str c.references
      ++ "\n\n" ++ "Output Requirements:\n- Format: " ++ c.output_format
      ++ "\n- Tone: " ++ c.tonality)
  simp only [craft_system_message, String.append_assoc]

theorem craft_contains_context (c : PromptCanvas) (p : String) :
    Contains (craft_system_message (some c) p) c.context := by
  apply contains_of_eq _ ("You are a " ++ c.persona
    ++ " focused on delivering results for " ++ c.audience
    ++ ".\n\n" ++ "Task: " ++ c.task
    ++ "\n\n" ++ "Step-by-Step Approach:\n" ++ steps_str c.steps
    ++ "\n\n" ++ "Context: ") c.context
    ("\n\n" ++ "References: " ++ references_str c.references
      ++ "\n\n" ++ "Output Requirements:\n- Format: " ++ c.output_format
      ++ "\n- Tone: " ++ c.tonality)
  simp only [craft_system_message, String.append_assoc]

theorem craft_contains_references_block (c : PromptCanvas) (p : String) :
    Contains (craft_system_message (some c) p)
      ("References: " ++ references_str c.references) := by
  apply contains_of_eq _ ("You are a " ++ c.persona
    ++ " focused on delivering results for " ++ c.audience
    ++ ".\n\n" ++ "Task: " ++ c.task
    ++ "\n\n" ++ "Step-by-Step Approach:\n" ++ steps_str c.steps
    ++ "\n\n" ++ "Context: " ++ c.context ++ "\n\n")
    ("References: " ++ references_str c.references)
    ("\n\n" ++ "Output Requirements:\n- Format: " ++ c.output_format
      ++ "\n- Tone: " ++ c.tonality)
  simp only [craft_system_message, String.append_assoc]

theorem craft_contains_output_format (c : PromptCanvas) (p : String) :
    Contains (craft_system_message (some c) p) c.output_format := by
  apply contains_of_eq _ ("You are a " ++ c.persona
    ++ " focused on delivering results for " ++ c.audience
    ++ ".\n\n" ++ "Task: " ++ c.task
    ++ "\n\n" ++ "Step-by-Step Approach:\n" ++ steps_str c.steps
    ++ "\n\n" ++ "Context: " ++ c.context
    ++ "\n\n" ++ "References: " ++ references_str c.references
    ++ "\n\n" ++ "Output Requirements:\n- Format: ") c.output_format
    ("\n- Tone: " ++ c.tonality)
  simp only [craft_system_message, String.append_assoc]

theorem craft_contains_tonality (c : PromptCanvas) (p : String) :
    Contains (craft_system_message (some c) p) c.tonality := by
  apply contains_of_eq _ ("You are a " ++ c.persona
    ++ " focused on delivering results for " ++ c.audience
    ++ ".\n\n" ++ "Task: " ++ c.task
    ++ "\n\n" ++ "Step-by-Step Approach:\n" ++ steps_str c.steps
    ++ "\n\n" ++ "Context: " ++ c.context
    ++ "\n\n" ++ "References: " ++ references_str c.references
    ++ "\n\n" ++ "Output Requirements:\n- Format: " ++ c.output_format
    ++ "\n- Tone: ") c.tonality ""
  simp only [craft_system_message, String.append_assoc, String.append_empty]

theorem craft_contains_steps_str (c : PromptCanvas) (p : String) :
    Contains (craft_system_message (some c) p) (steps_str c.steps) :=
  contains_trans _ _ _ (craft_contains_steps_block c p)
    (contains_append_right _ _ _ (contains_self _))

theorem craft_contains_references_str (c : PromptCanvas) (p : String) :
    Contains (craft_system_message (some c) p) (references_str c.references) :=
  contains_trans _ _ _ (craft_contains_references_block c p)
    (contains_append_right _ _ _ (contains_self _))

theorem steps_str_contains_mem (l : List String) (s : String) (hs : s ∈ l) :
    Contains (steps_str (some l)) s := by
  cases l with
  | nil => cases hs
  | cons a t =>
    show Contains (steps_str (some (a :: t))) s
    have he : steps_str (some (a :: t))
        = joinSep "\n" ((a :: t).map (fun step => "- " ++ step)) := rfl
    rw [he]
    apply contains_trans _ ("- " ++ s) _
    · exact contains_joinSep _ _ _ (List.mem_map_of_mem _ hs)
    · exact contains_append_right _ _ _ (contains_self s)

theorem references_str_contains_mem (l : List String) (r : String) (hr : r ∈ l) :
    Contains (references_str (some l)) r := by
  cases l with
  | nil => cases hr
  | cons a t =>
    show Contains (references_str (some (a :: t))) r
    have he : references_str (some (a :: t)) = joinSep ", " (a :: t) := rfl
    rw [he]
    exact contains_joinSep _ _ _ hr

/-- Claim C1: for every PromptCanvas record, the system message rendered
by craft_system_message contains the literal values of each field
verbatim as substrings: persona, audience, task, each element of steps,
context, each element of references, output_format, and tonality. -/
theorem claim1_fields_verbatim (c : PromptCanvas) (p : String) :
    Contains (craft_system_message (some c) p) c.persona ∧
    Contains (craft_system_message (some c) p) c.audience ∧
    Contains (craft_system_message (some c) p) c.task ∧
    (∀ s, s ∈ c.steps.getD [] → Contains (craft_system_message (some c) p) s) ∧
    Contains (craft_system_message (some c) p) c.context ∧
    (∀ r, r ∈ c.references.getD [] → Contains (craft_system_message (some c) p) r) ∧
    Contains (craft_system_message (some c) p) c.output_format ∧
    Contains (craft_system_message (some c) p) c.tonality := by
  refine ⟨craft_contains_persona c p, craft_contains_audience c p,
    craft_contains_task c p, ?_, craft_contains_context c p, ?_,
    craft_contains_output_format c p, craft_contains_tonality c p⟩
  · intro s hs
    cases hc : c.steps with
    | none => rw [hc] at hs; cases hs
    | some l =>
      rw [hc, Option.getD_some] at hs
      have h1 := craft_contains_steps_str c p
      rw [hc] at h1
      exact contains_trans _ _ _ h1 (steps_str_contains_mem l s hs)
  · intro r hr
    cases hc : c.references with
    | none => rw [hc] at hr; cases hr
    | some l =>
      rw [hc, Option.getD_some] at hr
      have h1 := craft_contains_references_str c p
      rw [hc] at h1
      exact contains_trans _ _ _ h1 (references_str_contains_mem l r hr)

theorem claim1_fields_verbatim_witness :
    Contains (craft_system_message (some sampleCanvas) "p") "read the notes" :=
  (claim1_fields_verbatim sampleCanvas "p").2.2.2.1 "read the notes" (by decide)

/-- Claim C2: for every PromptCanvas in which an optional field (steps or
references) is empty, craft_system_message renders that field as the
fixed placeholder string "None" in the produced system message, rather
than leaving it blank. -/
theorem claim2_empty_placeholder (c : PromptCanvas) (p : String) :
    (c.steps.getD [] = [] →
      steps_str c.steps = "None" ∧
      Contains (craft_system_message (some c) p) "Step-by-Step Approach:\nNone") ∧
    (c.references.getD [] = [] →
      references_str c.references = "None" ∧
      Contains (craft_system_message (some c) p) "References: None") := by
  constructor
  · intro h
    have hs : steps_str c.steps = "None" := by
      cases hc : c.steps with
      | none => rfl
      | some l =>
        rw [hc, Option.getD_some] at h
        rw [h]
        rfl
    refine ⟨hs, ?_⟩
    have hb := craft_contains_steps_block c p
    rw [hs] at hb
    have hl : ("Step-by-Step Approach:\n" ++ "None" : String)
        = "Step-by-Step Approach:\nNone" := rfl
    rw [hl] at hb
    exact hb
  · intro h
    have hs : references_str c.references = "None" := by
      cases hc : c.references with
      | none => rfl
      | some l =>
        rw [hc, Option.getD_some] at h
        rw [h]
        rfl
    refine ⟨hs, ?_⟩
    have hb := craft_contains_references_block c p
    rw [hs] at hb
    have hl : ("References: " ++ "None" : String) = "References: None" := rfl
    rw [hl] at hb
    exact hb

theorem claim2_empty_placeholder_witness :
    (steps_str blankListCanvas.steps = "None" ∧
      Contains (craft_system_message (some blankListCanvas) "q")
        "Step-by-Step Approach:\nNone") ∧
    (references_str blankListCanvas.references = "None" ∧
      Contains (craft_system_message (some blankListCanvas) "q")
        "References: None") :=
  ⟨(claim2_empty_placeholder blankListCanvas "q").1 (by decide),
   (claim2_empty_placeholder blankListCanvas "q").2 (by decide)⟩

/-- Claim C3: if the remote chat-completion call inside rephrase_prompt
raises an exception with text e, the call is caught and re-raised as a
single generic error whose message is "Prompt engineering error: "
followed by e; no other error classification is performed. -/
theorem claim3_generic_error (api : ChatRequest → Except String String)
    (prompt : String) (model : String) (temperature : Rat) (max_tokens : Int)
    (canvas : Option PromptCanvas) (e : String)
    (h : api (sentRequest prompt model temperature max_tokens canvas)
      = Except.error e) :
    rephrase_prompt api prompt model temperature max_tokens canvas
      = Except.error ("Prompt engineering error: " ++ e) := by
  unfold rephrase_prompt
  rw [h]

theorem claim3_generic_error_witness :
    rephrase_prompt failApi "p" "m" 0 10 none
      = Except.error ("Prompt engineering error: " ++ "boom") :=
  claim3_generic_error failApi "p" "m" 0 10 none "boom" rfl

/-- Claim C4: for every prompt, model, temperature, max_tokens and
optional canvas, rephrase_prompt sends exactly one message in the
chat-completion request, whose content equals
craft_system_message canvas prompt, and on success returns the response
text with leading and trailing whitespace stripped. -/
theorem claim4_single_message (api : ChatRequest → Except String String)
    (prompt : String) (model : String) (temperature : Rat) (max_tokens : Int)
    (canvas : Option PromptCanvas) (s : String)
    (h : api (sentRequest prompt model temperature max_tokens canvas)
      = Except.ok s) :
    (sentRequest prompt model temperature max_tokens canvas).messages
      = [{ role := "user", content := craft_system_message canvas prompt }] ∧
    rephrase_prompt api prompt model temperature max_tokens canvas
      = Except.ok s.trim := by
  refine ⟨rfl, ?_⟩
  unfold rephrase_prompt
  rw [h]

theorem claim4_single_message_witness :
    (sentRequest "p" "m" 0 10 (some sampleCanvas)).messages
      = [{ role := "user",
           content := craft_system_message (some sampleCanvas) "p" }] ∧
    rephrase_prompt okApi "p" "m" 0 10 (some sampleCanvas)
      = Except.ok ("  hello  ".trim) :=
  claim4_single_message okApi "p" "m" 0 10 (some sampleCanvas) "  hello  " rfl

/-- Claim C5 as stated is false: the negation of "the PromptCanvas record
has exactly eight fields, of which seven are strings and two (steps and
references) are ordered sequences of strings". The record does have
eight fields and two sequence fields, but only six string fields, so the
stated count of seven string fields cannot hold. -/
theorem claim5_counterexample :
    ¬ (promptCanvasFields.length = 8
       ∧ promptCanvasFields.countP (fun f => f.2 == PyFieldType.str) = 7
       ∧ promptCanvasFields.countP (fun f => f.2 == PyFieldType.optListStr) = 2) := by
  decide

/-- Claim C5, amended: the PromptCanvas record has exactly eight fields,
of which six are strings and two (steps and references) are optional
ordered sequences of strings; the record is exactly a tuple of these
declared field types. -/
theorem claim5_amended_field_counts :
    promptCanvasFields.length = 8
    ∧ promptCanvasFields.countP (fun f => f.2 == PyFieldType.str) = 6
    ∧ promptCanvasFields.countP (fun f => f.2 == PyFieldType.optListStr) = 2
    ∧ (promptCanvasFields.filter (fun f => f.2 == PyFieldType.optListStr)).map
        Prod.fst = ["steps", "references"]
    ∧ Nonempty (PromptCanvas ≃ fieldsType promptCanvasFields) :=
  ⟨by decide, by decide, by decide, by decide, ⟨canvasEquiv⟩⟩

/-- Claim C6: template rendering is deterministic; two invocations of
craft_system_message with equal canvas and prompt arguments return equal
system-message strings. -/
theorem claim6_deterministic (c₁ c₂ : Option PromptCanvas) (p₁ p₂ : String)
    (hc : c₁ = c₂) (hp : p₁ = p₂) :
    craft_system_message c₁ p₁ = craft_system_message c₂ p₂ := by
  rw [hc, hp]

theorem claim6_deterministic_witness :
    craft_system_message (some sampleCanvas) "x"
      = craft_system_message (some sampleCanvas) "x" :=
  claim6_deterministic (some sampleCanvas) (some sampleCanvas) "x" "x" rfl rfl

/-- Claim C7: for every PromptCanvas with a non-empty steps sequence, the
rendered system message lists the steps in the same order as in the
steps field, one per line as "- step" lines joined by newlines,
immediately after the "Step-by-Step Approach:" header. -/
theorem claim7_steps_in_order (c : PromptCanvas) (p : String)
    (l : List String) (h1 : c.steps = some l) (h2 : l ≠ []) :
    steps_str c.steps = joinSep "\n" (l.map (fun step => "- " ++ step)) ∧
    Contains (craft_system_message (some c) p)
      ("Step-by-Step Approach:\n"
        ++ joinSep "\n" (l.map (fun step => "- " ++ step))) := by
  have h3 : steps_str c.steps = joinSep "\n" (l.map (fun step => "- " ++ step)) := by
    rw [h1]
    cases l with
    | nil => exact absurd rfl h2
    | cons a t => rfl
  refine ⟨h3, ?_⟩
  have hb := craft_contains_steps_block c p
  rw [h3] at hb
  exact hb

theorem claim7_steps_in_order_witness :
    steps_str sampleCanvas.steps
      = joinSep "\n" ((["read the notes", "summarize"]).map
          (fun step => "- " ++ step)) ∧
    Contains (craft_system_message (some sampleCanvas) "p2")
      ("Step-by-Step Approach:\n"
        ++ joinSep "\n" ((["read the notes", "summarize"]).map
            (fun step => "- " ++ step))) :=
  claim7_steps_in_order sampleCanvas "p2" ["read the notes", "summarize"]
    rfl (by decide)

/-- Claim C8: for every PromptCanvas passed to rephrase_prompt, all eight
fields of the record are unchanged when the call returns or raises: the
canvas variable after the call still holds a record whose eight fields
equal the original ones. -/
theorem claim8_canvas_frame (api : ChatRequest → Except String String)
    (prompt : String) (model : String) (temperature : Rat) (max_tokens : Int)
    (canvas : Option PromptCanvas) (c : PromptCanvas) (h : canvas = some c) :
    ∃ c2, (rephrase_prompt_frame api prompt model temperature max_tokens
        canvas).2 = some c2
      ∧ c2.persona = c.persona ∧ c2.audience = c.audience
      ∧ c2.task = c.task ∧ c2.steps = c.steps
      ∧ c2.context = c.context ∧ c2.references = c.references
      ∧ c2.output_format = c.output_format ∧ c2.tonality = c.tonality := by
  refine ⟨c, ?_, rfl, rfl, rfl, rfl, rfl, rfl, rfl, rfl⟩
  have h2 : (rephrase_prompt_frame api prompt model temperature max_tokens
      canvas).2 = canvas := by
    unfold rephrase_prompt_frame
    cases api (sentRequest prompt model temperature max_tokens canvas) <;> rfl
  rw [h2, h]

theorem claim8_canvas_frame_witness :
    ∃ c2, (rephrase_prompt_frame okApi "p" "m" 0 10
        (some sampleCanvas)).2 = some c2
      ∧ c2.persona = sampleCanvas.persona
      ∧ c2.audience = sampleCanvas.audience
      ∧ c2.task = sampleCanvas.task ∧ c2.steps = sampleCanvas.steps
      ∧ c2.context = sampleCanvas.context
      ∧ c2.references = sampleCanvas.references
      ∧ c2.output_format = sampleCanvas.output_format
      ∧ c2.tonality = sampleCanvas.tonality :=
  claim8_canvas_frame okApi "p" "m" 0 10 (some sampleCanvas) sampleCanvas rfl

/-- Claim C9 (implicit): when a non-None canvas is supplied, the output
of craft_system_message is independent of the prompt argument; for any
two prompt strings and the same canvas the rendered system messages are
equal, so the bare prompt text never influences the request in canvas
mode. -/
theorem claim9_prompt_independent (c : PromptCanvas) (p₁ p₂ : String) :
    craft_system_message (some c) p₁ = craft_system_message (some c) p₂ := rfl

/-- Claim C10 (implicit): every streamlit PromptCanvas satisfies,
immediately after construction, the invariant that steps and references
are lists and never None: __post_init__ replaces a None value in either
field with the empty list and keeps any supplied list. -/
theorem claim10_post_init_invariant (persona : String) (audience : String)
    (task : String) (steps : Option (List String)) (context : String)
    (references : Option (List String)) (output_format : String)
    (tonality : String) :
    (mkPromptCanvasSt persona audience task steps context references
        output_format tonality).steps = some (steps.getD [])
    ∧ (mkPromptCanvasSt persona audience task steps context references
        output_format tonality).references = some (references.getD []) := by
  cases steps <;> cases references <;> exact ⟨rfl, rfl⟩

end Grompt
